import Mathlib

/-!
Shallow embedding of the x86 ffmpeg video pipeline of this repository
(source file `src/unnamed/part_002`, Go package `native`).

The embedding models:
* the pipeline's global mutable state (lines 28-45) as `PipeState`;
* configuration resolution `videoInit` (lines 83-117);
* the backend selector `buildFFmpegArgs` (lines 124-216);
* the subprocess supervisor `videoStart` (lines 218-247, the part that
  manipulates the run handle) and `videoStop` (lines 354-373);
* the quality controller `videoGetStreamQualityFactor` /
  `videoSetStreamQualityFactor` (lines 379-407);
* the stream framer: the AUD boundary scan `indexAUD` (lines 331-352) and
  one pass of the stdout reader loop (lines 281-309) as `scanFrames` /
  `readPass`.

Go float64 values are modelled as `ℚ` (the clamping comparisons and the
multiplication by 4 performed by the code are exact on binary floats, so
the rational model agrees with the float semantics on every representable
input).  Side effects (process spawns, kills, context cancellations,
error-level log sends, state-channel sends) are modelled explicitly as an
`Effects` record returned next to the new state.  Filesystem probing
(`os.Stat`) is modelled by an injected existence predicate
`String → Bool`.
-/

/-- Go's `int(x)` conversion on a float: truncation toward zero
(`videoSetStreamQualityFactor`, line 392 `mbps := int(4 * factor)`). -/
def intTrunc (q : ℚ) : ℤ :=
  if q < 0 then -Int.floor (-q) else Int.floor q

/-- The pipeline's package-level mutable state, lines 28-45 of
`src/unnamed/part_002`.  `ffmpegCmd`, `ffmpegCancel`, `ffmpegStdout` model
the nil-ness of the corresponding Go globals (the RunHandle);
`ready`/`errMsg` model `currentState.Ready` / `currentState.Error`. -/
structure PipeState where
  ffmpegCmd : Option Unit
  ffmpegCancel : Option Unit
  ffmpegStdout : Option Unit
  ready : Bool
  errMsg : String
  targetFPS : Nat
  targetBitrate : String
  videoDevice : String
  hwAccelMode : String
  vaapiDevice : String
  qualityFactor : ℚ
  deriving DecidableEq

/-- Initial values of the globals (lines 28-45): `targetFPS = 30`,
`targetBitrate = "4M"`, `videoDevice = "/dev/video0"`,
`qualityFactor = 1.0`, `hwAccelMode = "auto"`,
`vaapiDevice = "/dev/dri/renderD128"`, `currentState = {Ready: false}`. -/
def initState : PipeState :=
  { ffmpegCmd := none
  , ffmpegCancel := none
  , ffmpegStdout := none
  , ready := false
  , errMsg := ""
  , targetFPS := 30
  , targetBitrate := "4M"
  , videoDevice := "/dev/video0"
  , hwAccelMode := "auto"
  , vaapiDevice := "/dev/dri/renderD128"
  , qualityFactor := 1 }

/-- Observable side effects of one pipeline operation: argument vectors of
successfully spawned subprocesses, number of `Process.Kill` calls, number
of context-cancel calls, error-level log messages sent to `logChan`, and
`(Ready, Error)` snapshots sent to `videoStateChan`. -/
structure Effects where
  spawns : List (List String)
  killed : Nat
  cancels : Nat
  logsErr : List String
  statePub : List (Bool × String)
  deriving DecidableEq

/-- No side effects. -/
def emptyEffects : Effects :=
  { spawns := [], killed := 0, cancels := 0, logsErr := [], statePub := [] }

/-- Sequential composition of effects. -/
def Effects.append (a b : Effects) : Effects :=
  { spawns := a.spawns ++ b.spawns
  , killed := a.killed + b.killed
  , cancels := a.cancels + b.cancels
  , logsErr := a.logsErr ++ b.logsErr
  , statePub := a.statePub ++ b.statePub }

/-- The ffmpeg VAAPI argument list, lines 147-168. -/
def vaapiArgs (vaapiDevice videoDevice : String) (targetFPS : Nat)
    (targetBitrate : String) : List String :=
  ["-hide_banner", "-loglevel", "warning", "-fflags", "nobuffer",
   "-flags", "low_delay", "-hwaccel", "vaapi", "-vaapi_device", vaapiDevice,
   "-f", "v4l2", "-input_format", "mjpeg", "-i", videoDevice, "-an",
   "-vf", "format=nv12,hwupload", "-c:v", "h264_vaapi", "-bf", "0",
   "-r", toString targetFPS, "-b:v", targetBitrate, "-f", "h264", "pipe:1"]

/-- The ffmpeg QSV argument list, lines 172-192. -/
def qsvArgs (videoDevice : String) (targetFPS : Nat)
    (targetBitrate : String) : List String :=
  ["-hide_banner", "-loglevel", "warning", "-fflags", "nobuffer",
   "-flags", "low_delay", "-hwaccel", "qsv",
   "-f", "v4l2", "-input_format", "mjpeg", "-i", videoDevice, "-an",
   "-c:v", "h264_qsv", "-look_ahead", "0", "-bf", "0",
   "-r", toString targetFPS, "-b:v", targetBitrate, "-f", "h264", "pipe:1"]

/-- The software libx264 argument list, lines 196-215. -/
def x264Args (videoDevice : String) (targetFPS : Nat)
    (targetBitrate : String) : List String :=
  ["-hide_banner", "-loglevel", "warning", "-fflags", "nobuffer",
   "-flags", "low_delay",
   "-f", "v4l2", "-input_format", "mjpeg", "-i", videoDevice, "-an",
   "-c:v", "libx264", "-preset", "veryfast", "-tune", "zerolatency",
   "-profile:v", "baseline", "-level", "3.1", "-pix_fmt", "yuv420p",
   "-r", toString targetFPS, "-b:v", targetBitrate, "-f", "h264", "pipe:1"]

/-- The backend selector `buildFFmpegArgs`, lines 124-216.  `fs d` models
`os.Stat(d) == nil` (device node `d` exists).  Mirrors the code exactly:
`canVAAPI` is set only when the mode is `vaapi` or `auto` *and* the VAAPI
device node exists (lines 131-136); `canQSV` only when the mode is `qsv`,
or `auto` with VAAPI unavailable, *and* `/dev/dri/renderD128` exists
(lines 139-144); otherwise the libx264 fallback is returned. -/
def buildFFmpegArgs (fs : String → Bool) (hwAccelMode vaapiDevice videoDevice : String)
    (targetFPS : Nat) (targetBitrate : String) : List String :=
  let canVAAPI := (hwAccelMode == "vaapi" || hwAccelMode == "auto") && fs vaapiDevice
  let canQSV := (hwAccelMode == "qsv" || (hwAccelMode == "auto" && !canVAAPI))
      && fs "/dev/dri/renderD128"
  if canVAAPI && hwAccelMode != "none" then
    vaapiArgs vaapiDevice videoDevice targetFPS targetBitrate
  else if canQSV && hwAccelMode != "none" then
    qsvArgs videoDevice targetFPS targetBitrate
  else
    x264Args videoDevice targetFPS targetBitrate

/-- The selection policy as the spec's claim describes it, after the
correction forced by the code: the accel-A (VAAPI) list is emitted only
when the mode is `vaapi` or `auto` *and* accel-A's device node exists;
the accel-B (QSV) list only when the mode is `qsv`, or `auto` with
accel-A's node absent, *and* the fixed accel-B node exists; otherwise the
software list.  Stated without the code's intermediate `canVAAPI`/`canQSV`
variables and without the redundant `mode != "none"` guards. -/
def specSelectorArgs (fs : String → Bool) (hwAccelMode vaapiDevice videoDevice : String)
    (targetFPS : Nat) (targetBitrate : String) : List String :=
  if (hwAccelMode == "vaapi" || hwAccelMode == "auto") && fs vaapiDevice then
    vaapiArgs vaapiDevice videoDevice targetFPS targetBitrate
  else if (hwAccelMode == "qsv" || (hwAccelMode == "auto" && !(fs vaapiDevice)))
      && fs "/dev/dri/renderD128" then
    qsvArgs videoDevice targetFPS targetBitrate
  else
    x264Args videoDevice targetFPS targetBitrate

/-- Environment oracle for one `videoStart` attempt: whether
`ffmpegCmd.StdoutPipe()` succeeds, whether `ffmpegCmd.Start()` succeeds,
and the filesystem existence probe used by `buildFFmpegArgs`. -/
structure StartEnv where
  pipeOk : Bool
  spawnOk : Bool
  fsExists : String → Bool

/-- The subprocess supervisor's `videoStart`, lines 218-247 (the run-handle
manipulation; the two reader goroutines it launches are modelled
separately by `scanFrames`/`readPass`).  Returns immediately when a run
handle already exists (line 223).  Otherwise it registers the cancel
function and command handle, and on `StdoutPipe` or `Start` failure logs
an error and clears `ffmpegCmd`/`ffmpegCancel` (lines 232-247 — note the
code does not clear `ffmpegStdout` on the `Start` failure path).  On
success it publishes `Ready=true, Error=""` (lines 324-328). -/
def videoStart (env : StartEnv) (s : PipeState) : PipeState × Effects :=
  if s.ffmpegCmd.isSome then (s, emptyEffects)
  else
    let args := buildFFmpegArgs env.fsExists s.hwAccelMode s.vaapiDevice
        s.videoDevice s.targetFPS s.targetBitrate
    let s1 := { s with ffmpegCancel := some (), ffmpegCmd := some () }
    if env.pipeOk = false then
      ({ s1 with ffmpegCmd := none, ffmpegCancel := none },
       { spawns := [], killed := 0, cancels := 0,
         logsErr := ["ffmpeg stdout pipe error"], statePub := [] })
    else
      let s2 := { s1 with ffmpegStdout := some () }
      if env.spawnOk = false then
        ({ s2 with ffmpegCmd := none, ffmpegCancel := none },
         { spawns := [], killed := 0, cancels := 0,
           logsErr := ["ffmpeg start failed"], statePub := [] })
      else
        let s3 := { s2 with ready := true, errMsg := "" }
        (s3, { spawns := [args], killed := 0, cancels := 0, logsErr := [],
               statePub := [(s3.ready, s3.errMsg)] })

/-- The supervisor's `videoStop`, lines 354-373: cancel the context if a
cancel function is registered, kill and wait for the process if a command
handle exists, clear all three handle fields, set `Ready=false` and
publish the state. -/
def videoStop (s : PipeState) : PipeState × Effects :=
  let cancels := if s.ffmpegCancel.isSome then 1 else 0
  let killed := if s.ffmpegCmd.isSome then 1 else 0
  let s1 := { s with ffmpegCmd := none, ffmpegCancel := none,
                     ffmpegStdout := none, ready := false }
  (s1, { spawns := [], killed := killed, cancels := cancels, logsErr := [],
         statePub := [(s1.ready, s1.errMsg)] })

/-- `videoGetStreamQualityFactor`, lines 379-381: returns the stored
factor and a nil error. -/
def videoGetStreamQualityFactor (s : PipeState) : ℚ × Option String :=
  (s.qualityFactor, none)

/-- `videoSetStreamQualityFactor`, lines 383-407: clamp the factor to
[0.5, 2.0] (lines 385-390), store it, compute `mbps := int(4*factor)`
clamped to [2, 12] (lines 392-398), store the bitrate token
`fmt.Sprintf("%dM", mbps)` (line 399), and if a run handle exists restart
the pipeline (lines 402-405).  The Go function always returns a nil
error. -/
def videoSetStreamQualityFactor (env : StartEnv) (factor : ℚ) (s : PipeState) :
    PipeState × Effects :=
  let f1 := if factor < 1/2 then (1/2 : ℚ) else factor
  let f2 := if f1 > 2 then (2 : ℚ) else f1
  let mbps0 := intTrunc (4 * f2)
  let mbps1 := if mbps0 < 2 then (2 : ℤ) else mbps0
  let mbps2 := if mbps1 > 12 then (12 : ℤ) else mbps1
  let s1 := { s with qualityFactor := f2, targetBitrate := toString mbps2 ++ "M" }
  if s1.ffmpegCmd.isSome then
    let r1 := videoStop s1
    let r2 := videoStart env r1.1
    (r2.1, Effects.append r1.2 r2.2)
  else (s1, emptyEffects)

/-- The bitrate token the spec's claim describes: `"<m>M"` with
`m = clamp(round(4 × factor), 2, 12)` after clamping the factor to
[0.5, 2.0].  Used to compare the claim's rounding against the code's
truncation. -/
def specBitrateToken (factor : ℚ) : String :=
  let clamped := max (1/2) (min 2 factor)
  toString (max 2 (min 12 (round (4 * clamped)))) ++ "M"

/-- The raw values of the five environment variables read by `videoInit`
(lines 88-109); `""` models an unset variable, as in Go. -/
structure OsEnv where
  videoDeviceVar : String
  fpsVar : String
  bitrateVar : String
  hwAccelVar : String
  vaapiDeviceVar : String

/-- Go's `strconv.Atoi`: optional sign, then a nonempty run of decimal
digits and nothing else; values outside the 64-bit signed range are an
error (Go returns `ErrRange`), modelled as `none`. -/
def goAtoi (s : String) : Option ℤ :=
  match s.toList with
  | [] => none
  | c :: rest =>
    let signed := if c = '-' then (true, rest) else
                  if c = '+' then (false, rest) else (false, c :: rest)
    let digits := signed.2
    if digits = [] then none
    else if digits.all Char.isDigit then
      let n : ℕ := digits.foldl (fun acc d => acc * 10 + (d.toNat - 48)) 0
      let v : ℤ := if signed.1 then -(n : ℤ) else (n : ℤ)
      if v < -(2 ^ 63) ∨ 2 ^ 63 - 1 < v then none else some v
    else none

/-- Lines 88-90 of `videoInit`: the `VIDEO_DEVICE` override. -/
def applyDeviceVar (env : OsEnv) (s : PipeState) : PipeState :=
  if env.videoDeviceVar.trim ≠ "" then
    { s with videoDevice := env.videoDeviceVar.trim }
  else s

/-- Lines 91-95 of `videoInit`: the `VIDEO_FPS` override, accepted only
when it parses and lies in (0, 120]. -/
def applyFpsVar (env : OsEnv) (s : PipeState) : PipeState :=
  if env.fpsVar.trim ≠ "" then
    match goAtoi env.fpsVar.trim with
    | some v => if 0 < v ∧ v ≤ 120 then { s with targetFPS := v.toNat } else s
    | none => s
  else s

/-- Lines 96-98 of `videoInit`: the `VIDEO_BITRATE` override, accepted
verbatim. -/
def applyBitrateVar (env : OsEnv) (s : PipeState) : PipeState :=
  if env.bitrateVar.trim ≠ "" then
    { s with targetBitrate := env.bitrateVar.trim }
  else s

/-- Lines 100-106 of `videoInit`: the `VIDEO_HWACCEL` override, accepted
only when its lower-casing is one of auto/vaapi/qsv/none. -/
def applyHwAccelVar (env : OsEnv) (s : PipeState) : PipeState :=
  if env.hwAccelVar.trim ≠ "" then
    let accelLower := (env.hwAccelVar.trim).toLower
    if accelLower = "auto" ∨ accelLower = "vaapi" ∨ accelLower = "qsv" ∨
       accelLower = "none" then
      { s with hwAccelMode := accelLower }
    else s
  else s

/-- Lines 107-109 of `videoInit`: the `VIDEO_VAAPI_DEVICE` override. -/
def applyVaapiVar (env : OsEnv) (s : PipeState) : PipeState :=
  if env.vaapiDeviceVar.trim ≠ "" then
    { s with vaapiDevice := env.vaapiDeviceVar.trim }
  else s

/-- Configuration resolution, lines 88-109 of `videoInit`: the five
environment overrides applied in the order the code reads them. -/
def resolveConfig (env : OsEnv) (s : PipeState) : PipeState :=
  applyVaapiVar env (applyHwAccelVar env (applyBitrateVar env
    (applyFpsVar env (applyDeviceVar env s))))

/-- `videoInit`, lines 83-117: resolve the configuration from the
environment, then check that the capture device exists (line 112,
`os.Stat(videoDevice)` modelled by `fs`); on failure return the error
`"video device not found: <device>"`.  `videoInit` performs no process
launch, so its `Effects` component is always empty. -/
def videoInit (env : OsEnv) (fs : String → Bool) (s : PipeState) :
    PipeState × Option String × Effects :=
  let s1 := resolveConfig env s
  if fs s1.videoDevice then (s1, none, emptyEffects)
  else (s1, some ("video device not found: " ++ s1.videoDevice), emptyEffects)

/-- The H.264 Annex B start code used by the stdout reader loop
(line 276, `startCode := []byte{0x00, 0x00, 0x00, 0x01}`).  Bytes are
modelled as `Nat` values below 256. -/
def startCode : List Nat := [0, 0, 0, 1]

/-- Does `hay` begin with `pat`?  (Element test of Go's `bytes.Index`.) -/
def listStartsWith : List Nat → List Nat → Bool
  | _, [] => true
  | [], _ :: _ => false
  | a :: as, b :: bs => a == b && listStartsWith as bs

/-- Go's `bytes.Index(hay, pat)` (line 334): lowest index where `pat`
occurs in `hay`, `none` for Go's `-1`. -/
def bytesIndex : List Nat → List Nat → Option Nat
  | [], pat => if listStartsWith [] pat then some 0 else none
  | a :: t, pat =>
    if listStartsWith (a :: t) pat then some 0
    else (bytesIndex t pat).map (fun k => k + 1)

/-- The scan loop body of `indexAUD`, lines 333-351: from position `i`,
find the next start-code occurrence at `pos`; if a byte follows the
4-byte code and its low 5 bits equal 9 (AUD), return `pos`; otherwise
advance to `pos + 4` and continue, returning `none` (Go's `-1`) once the
position reaches the end.  Each iteration advances `i` by at least the
start-code length 4, which is the termination measure. -/
def indexAUDAux (b : List Nat) (i : Nat) : Option Nat :=
  match bytesIndex (b.drop i) startCode with
  | none => none
  | some j =>
    if h : i + j + 4 < b.length then
      if (b.getD (i + j + 4) 0) % 32 == 9 then some (i + j)
      else indexAUDAux b (i + j + 4)
    else none
termination_by b.length - i
decreasing_by omega

/-- `indexAUD(b, startCode)`, lines 331-352, at the call site's fixed
start code.  Totality of this definition (well-founded recursion on
`b.length - i`) is the termination property of the Go loop. -/
def indexAUD (b : List Nat) : Option Nat :=
  indexAUDAux b 0

/-- Position `pos` of `b` carries an AUD boundary: the 4-byte start code
occurs at `pos` and the following byte exists and has low 5 bits 9. -/
def isBoundaryAt (b : List Nat) (pos : Nat) : Prop :=
  (b.drop pos).take 4 = startCode ∧ pos + 4 < b.length ∧
    (b.getD (pos + 4) 0) % 32 = 9

theorem listStartsWith_take : ∀ (l p : List Nat),
    listStartsWith l p = true → l.take p.length = p := by
  intro l p
  induction p generalizing l with
  | nil => intro _; simp
  | cons b bs ih =>
    intro h
    cases l with
    | nil => simp [listStartsWith] at h
    | cons a as =>
      simp only [listStartsWith, Bool.and_eq_true, beq_iff_eq] at h
      simp [List.take, h.1, ih as h.2]

theorem bytesIndex_sound : ∀ (hay pat : List Nat) (j : Nat),
    bytesIndex hay pat = some j → listStartsWith (hay.drop j) pat = true := by
  intro hay
  induction hay with
  | nil =>
    intro pat j h
    simp only [bytesIndex] at h
    split at h
    · cases h; simpa using (by assumption : listStartsWith [] pat = true)
    · cases h
  | cons a t ih =>
    intro pat j h
    simp only [bytesIndex] at h
    split at h
    · cases h
      simpa using (by assumption : listStartsWith (a :: t) pat = true)
    · rcases Option.map_eq_some'.mp h with ⟨k, hk, rfl⟩
      simpa using ih pat k hk

theorem indexAUDAux_sound : ∀ (fuel : Nat) (b : List Nat) (i pos : Nat),
    b.length - i ≤ fuel → indexAUDAux b i = some pos → isBoundaryAt b pos := by
  intro fuel
  induction fuel with
  | zero =>
    intro b i pos hk h
    have hdrop : b.drop i = [] := List.drop_eq_nil_of_le (by omega)
    rw [indexAUDAux, hdrop] at h
    simp [bytesIndex, listStartsWith, startCode] at h
  | succ n ih =>
    intro b i pos hk h
    rw [indexAUDAux] at h
    split at h
    · cases h
    · rename_i j hbi
      split at h
      · rename_i hlt
        split at h
        · rename_i haud
          cases h
          refine ⟨?_, by omega, by simpa using haud⟩
          have hp := bytesIndex_sound _ _ _ hbi
          rw [List.drop_drop] at hp
          have ht := listStartsWith_take _ _ hp
          simpa [startCode, Nat.add_comm j i] using ht
        · exact ih b (i + j + 4) pos (by omega) h
      · cases h

theorem indexAUD_sound (b : List Nat) (pos : Nat)
    (h : indexAUD b = some pos) : isBoundaryAt b pos :=
  indexAUDAux_sound b.length b 0 pos (by omega) h

/-- The inner frame-delivery loop of the stdout reader, lines 286-301:
repeatedly look for an AUD boundary; when found at `idx > 0`, the bytes
`[0, idx)` are delivered as one frame and discarded from the buffer
(`buf.Next(idx)`); the loop stops as soon as `idx <= 0` (boundary at the
buffer head, or no boundary).  Returns the delivered frames and the
retained buffer. -/
def scanFrames (buf : List Nat) : List (List Nat) × List Nat :=
  match h : indexAUD buf with
  | none => ([], buf)
  | some idx =>
    if hpos : 0 < idx then
      (buf.take idx :: (scanFrames (buf.drop idx)).1, (scanFrames (buf.drop idx)).2)
    else ([], buf)
termination_by buf.length
decreasing_by
  all_goals
    have hb := indexAUD_sound buf idx h
    have := hb.2.1
    simp only [List.length_drop]
    omega

/-- One pass of the stdout reader loop for a read that returned the bytes
`chunk`, lines 283-309: append to the accumulation buffer, run the frame
scan, then apply the 256 KiB overflow guard (lines 302-309): if the buffer
still holds more than `256*1024` bytes, deliver it whole as one degenerate
frame and clear it. -/
def readPass (buf chunk : List Nat) : List (List Nat) × List Nat :=
  let data := buf ++ chunk
  let r := scanFrames data
  if 256 * 1024 < r.2.length then (r.1 ++ [r.2], []) else r

theorem scanFrames_stop (buf : List Nat)
    (h : indexAUD buf = none ∨ indexAUD buf = some 0) :
    scanFrames buf = ([], buf) := by
  rw [scanFrames]
  rcases h with h | h
  · split
    · rfl
    · rename_i idx heq
      rw [h] at heq; cases heq
  · split
    · rfl
    · rename_i idx heq
      rw [h] at heq
      injection heq with h0
      subst h0
      simp

theorem videoStop_preserves (s : PipeState) :
    (videoStop s).1.qualityFactor = s.qualityFactor ∧
    (videoStop s).1.targetBitrate = s.targetBitrate :=
  ⟨rfl, rfl⟩

theorem videoStart_preserves (env : StartEnv) (s : PipeState) :
    (videoStart env s).1.qualityFactor = s.qualityFactor ∧
    (videoStart env s).1.targetBitrate = s.targetBitrate := by
  simp only [videoStart]
  split
  · exact ⟨rfl, rfl⟩
  · split
    · exact ⟨rfl, rfl⟩
    · split
      · exact ⟨rfl, rfl⟩
      · exact ⟨rfl, rfl⟩

theorem applyDeviceVar_quality (env : OsEnv) (s : PipeState) :
    (applyDeviceVar env s).qualityFactor = s.qualityFactor := by
  unfold applyDeviceVar; split <;> rfl

theorem applyFpsVar_quality (env : OsEnv) (s : PipeState) :
    (applyFpsVar env s).qualityFactor = s.qualityFactor := by
  unfold applyFpsVar
  repeat' split
  all_goals rfl

theorem applyBitrateVar_quality (env : OsEnv) (s : PipeState) :
    (applyBitrateVar env s).qualityFactor = s.qualityFactor := by
  unfold applyBitrateVar; split <;> rfl

theorem applyHwAccelVar_quality (env : OsEnv) (s : PipeState) :
    (applyHwAccelVar env s).qualityFactor = s.qualityFactor := by
  unfold applyHwAccelVar
  split
  · dsimp only
    split <;> rfl
  · rfl

theorem applyVaapiVar_quality (env : OsEnv) (s : PipeState) :
    (applyVaapiVar env s).qualityFactor = s.qualityFactor := by
  unfold applyVaapiVar; split <;> rfl

theorem resolveConfig_quality (env : OsEnv) (s : PipeState) :
    (resolveConfig env s).qualityFactor = s.qualityFactor := by
  unfold resolveConfig
  rw [applyVaapiVar_quality, applyHwAccelVar_quality, applyBitrateVar_quality,
    applyFpsVar_quality, applyDeviceVar_quality]

theorem videoInit_fst (env : OsEnv) (fs : String → Bool) (s : PipeState) :
    (videoInit env fs s).1 = resolveConfig env s := by
  simp only [videoInit]
  split <;> rfl

theorem ratClamp_eq (factor : ℚ) :
    (if (if factor < 1/2 then (1/2 : ℚ) else factor) > 2 then (2 : ℚ)
     else if factor < 1/2 then (1/2 : ℚ) else factor)
      = max (1/2) (min 2 factor) := by
  rcases lt_or_le factor (1/2) with h | h
  · rw [if_pos h]
    have hno : ¬ ((1 : ℚ)/2 > 2) := by norm_num
    rw [if_neg hno, min_eq_right (le_trans h.le (by norm_num)), max_eq_left h.le]
  · rw [if_neg (not_lt.mpr h)]
    rcases le_or_lt factor 2 with h2 | h2
    · rw [if_neg (not_lt.mpr h2), min_eq_right h2, max_eq_right h]
    · rw [if_pos h2, min_eq_left h2.le, max_eq_right (by norm_num)]

theorem intClamp_eq (t : ℤ) :
    (if (if t < 2 then (2 : ℤ) else t) > 12 then (12 : ℤ)
     else if t < 2 then (2 : ℤ) else t)
      = max 2 (min 12 t) := by
  rcases lt_or_le t 2 with h | h
  · rw [if_pos h]
    have hno : ¬ ((2 : ℤ) > 12) := by norm_num
    rw [if_neg hno, min_eq_right (by omega), max_eq_left (by omega)]
  · rw [if_neg (not_lt.mpr h)]
    rcases le_or_lt t 12 with h2 | h2
    · rw [if_neg (not_lt.mpr h2), min_eq_right h2, max_eq_right h]
    · rw [if_pos h2, min_eq_left h2.le, max_eq_right (by norm_num)]

theorem setQuality_fields (env : StartEnv) (factor : ℚ) (s : PipeState) :
    (videoSetStreamQualityFactor env factor s).1.qualityFactor
      = max (1/2) (min 2 factor) ∧
    (videoSetStreamQualityFactor env factor s).1.targetBitrate
      = toString (max 2 (min 12 (intTrunc (4 * max (1/2) (min 2 factor))))) ++ "M" := by
  simp only [videoSetStreamQualityFactor]
  split
  · constructor
    · rw [(videoStart_preserves _ _).1, (videoStop_preserves _).1]
      exact ratClamp_eq factor
    · rw [(videoStart_preserves _ _).2, (videoStop_preserves _).2]
      rw [show ((if (if factor < 1/2 then (1/2 : ℚ) else factor) > 2 then (2 : ℚ)
            else if factor < 1/2 then (1/2 : ℚ) else factor))
          = max (1/2) (min 2 factor) from ratClamp_eq factor]
      rw [intClamp_eq]
  · constructor
    · exact ratClamp_eq factor
    · rw [show ((if (if factor < 1/2 then (1/2 : ℚ) else factor) > 2 then (2 : ℚ)
            else if factor < 1/2 then (1/2 : ℚ) else factor))
          = max (1/2) (min 2 factor) from ratClamp_eq factor]
      rw [intClamp_eq]

/-- C10: the boundary scan `indexAUD` is total (its Lean definition is by
well-founded recursion on `b.length - i`, mirroring that each Go loop
iteration advances the scan position by at least the 4-byte marker
length), and it returns either `none` (Go's `-1`) or an offset at which
the 4-byte start marker occurs and is followed within `b` by a byte whose
low 5 bits equal 9; since any returned offset `pos` satisfies
`pos + 4 < b.length`, a start marker occurring in the last 4 bytes of the
input, with no following unit-type byte, never produces a boundary. -/
theorem indexAUD_spec (b : List Nat) :
    indexAUD b = none ∨ ∃ pos, indexAUD b = some pos ∧ isBoundaryAt b pos := by
  cases h : indexAUD b with
  | none => exact Or.inl rfl
  | some pos => exact Or.inr ⟨pos, rfl, indexAUD_sound b pos h⟩

/-- C7: `videoInit` returns the error `"video device not found: <dev>"`
exactly when the resolved capture device path is absent from the
filesystem at validation time, returns no error when it exists, and never
spawns a subprocess. -/
theorem videoInit_device_check (env : OsEnv) (fs : String → Bool) (s : PipeState) :
    ((videoInit env fs s).2.1 =
      if fs ((videoInit env fs s).1.videoDevice) then none
      else some ("video device not found: " ++ (videoInit env fs s).1.videoDevice)) ∧
    (videoInit env fs s).2.2.spawns = [] := by
  constructor
  · unfold videoInit
    cases h : fs (resolveConfig env s).videoDevice <;> simp [h]
  · unfold videoInit
    cases h : fs (resolveConfig env s).videoDevice <;> simp [h, emptyEffects]

/-- C8: `videoStop` on an already-idle pipeline (no run handle: all three
handle fields nil) terminates no process and cancels no context, leaves
the handle fields empty, and a second `videoStop` returns exactly the
same state and effects as the first — `stop()` is an idempotent safe
no-op when idle. -/
theorem videoStop_idle_noop (s : PipeState)
    (h1 : s.ffmpegCmd = none) (h2 : s.ffmpegCancel = none)
    (h3 : s.ffmpegStdout = none) :
    (videoStop s).2.killed = 0 ∧ (videoStop s).2.cancels = 0 ∧
    (videoStop s).1.ffmpegCmd = none ∧ (videoStop s).1.ffmpegCancel = none ∧
    (videoStop s).1.ffmpegStdout = none ∧
    videoStop ((videoStop s).1) = videoStop s := by
  refine ⟨by simp [videoStop, h1], by simp [videoStop, h2], rfl, rfl, rfl, ?_⟩
  simp [videoStop, h1, h2]

/-- Witness for C8 at the initial (idle) state. -/
theorem videoStop_idle_noop_witness :
    (videoStop initState).2.killed = 0 ∧ (videoStop initState).2.cancels = 0 ∧
    (videoStop initState).1.ffmpegCmd = none ∧
    (videoStop initState).1.ffmpegCancel = none ∧
    (videoStop initState).1.ffmpegStdout = none ∧
    videoStop ((videoStop initState).1) = videoStop initState :=
  videoStop_idle_noop initState rfl rfl rfl

/-- C9: `videoGetStreamQualityFactor` never returns an error; the stored
quality factor starts at 1.0, is kept inside [0.5, 2.0] by
`videoSetStreamQualityFactor` (which stores the clamped value), and is
not modified by `videoStop`, `videoStart` or `videoInit`; after setting
the out-of-range factor 5.0 the getter returns the clamped boundary 2.0
with a nil error. -/
theorem qualityFactor_invariant (s : PipeState) (factor : ℚ) (env : StartEnv)
    (e : OsEnv) (fs : String → Bool) :
    (videoGetStreamQualityFactor s).2 = none ∧
    initState.qualityFactor = 1 ∧
    1/2 ≤ (videoSetStreamQualityFactor env factor s).1.qualityFactor ∧
    (videoSetStreamQualityFactor env factor s).1.qualityFactor ≤ 2 ∧
    (videoStop s).1.qualityFactor = s.qualityFactor ∧
    (videoStart env s).1.qualityFactor = s.qualityFactor ∧
    (videoInit e fs s).1.qualityFactor = s.qualityFactor ∧
    videoGetStreamQualityFactor ((videoSetStreamQualityFactor env 5 s).1) = (2, none) := by
  refine ⟨rfl, rfl, ?_, ?_, (videoStop_preserves s).1, (videoStart_preserves env s).1,
    ?_, ?_⟩
  · rw [(setQuality_fields env factor s).1]
    exact le_max_left _ _
  · rw [(setQuality_fields env factor s).1]
    exact max_le (by norm_num) (min_le_left _ _)
  · rw [videoInit_fst]
    exact resolveConfig_quality e s
  · have h := (setQuality_fields env 5 s).1
    rw [videoGetStreamQualityFactor, h]
    norm_num

/-- A start environment in which every filesystem probe succeeds and both
`StdoutPipe` and `Start` succeed. -/
def envAllOk : StartEnv :=
  { pipeOk := true, spawnOk := true, fsExists := fun _ => true }

/-- C1, counterexample to the claim's rounding: at factor 0.7 the code
computes `int(4*0.7) = 2` (truncation) and stores the token `"2M"`,
whereas the claim's formula `clamp(round(4 × factor), 2, 12)` gives
`round(2.8) = 3`, i.e. the token `"3M"`. -/
theorem setQualityFactor_round_counterexample :
    (videoSetStreamQualityFactor envAllOk (7/10) initState).1.targetBitrate = "2M" ∧
    specBitrateToken (7/10) = "3M" ∧
    ("2M" : String) ≠ "3M" := by
  have h1 : max ((1:ℚ)/2) (min 2 (7/10)) = 7/10 := by
    rw [min_eq_right (by norm_num : (7:ℚ)/10 ≤ 2),
      max_eq_right (by norm_num : (1:ℚ)/2 ≤ 7/10)]
  refine ⟨?_, ?_, by decide⟩
  · have h := (setQuality_fields envAllOk (7/10) initState).2
    rw [h, h1]
    have h2 : intTrunc ((4:ℚ) * (7/10)) = 2 := by
      rw [intTrunc, if_neg (by norm_num : ¬ ((4:ℚ) * (7/10) < 0))]
      rw [show (4:ℚ) * (7/10) = 14/5 by norm_num]
      rw [Int.floor_eq_iff]
      constructor <;> norm_num
    rw [h2, min_eq_right (by norm_num : (2:ℤ) ≤ 12), max_self]
    decide
  · simp only [specBitrateToken]
    rw [h1]
    have h3 : round ((4:ℚ) * (7/10)) = (3:ℤ) := by
      rw [round_eq, show (4:ℚ) * (7/10) + 1/2 = 33/10 by norm_num]
      rw [Int.floor_eq_iff]
      constructor <;> norm_num
    rw [h3, min_eq_right (by norm_num : (3:ℤ) ≤ 12),
      max_eq_right (by norm_num : (2:ℤ) ≤ 3)]
    decide

/-- C1 (amended: the code truncates `4 × factor` toward zero rather than
rounding): `videoSetStreamQualityFactor` clamps the input to [0.5, 2.0]
and stores it, sets the bitrate token to `"<m>M"` with
`m = clamp(trunc(4 × factor), 2, 12)` — hence the bitrate always lies in
[2, 12] Mbps — and calling it with 0.1 behaves identically to calling it
with 0.5, calling it with 5.0 identically to calling it with 2.0. -/
theorem setQualityFactor_trunc_clamp (factor : ℚ) (env : StartEnv) (s : PipeState) :
    (videoSetStreamQualityFactor env factor s).1.qualityFactor
      = max (1/2) (min 2 factor) ∧
    (videoSetStreamQualityFactor env factor s).1.targetBitrate
      = toString (max 2 (min 12 (intTrunc (4 * max (1/2) (min 2 factor))))) ++ "M" ∧
    (∃ m : ℤ, 2 ≤ m ∧ m ≤ 12 ∧
      (videoSetStreamQualityFactor env factor s).1.targetBitrate = toString m ++ "M") ∧
    videoSetStreamQualityFactor env (1/10) s = videoSetStreamQualityFactor env (1/2) s ∧
    videoSetStreamQualityFactor env 5 s = videoSetStreamQualityFactor env 2 s := by
  refine ⟨(setQuality_fields env factor s).1, (setQuality_fields env factor s).2,
    ⟨max 2 (min 12 (intTrunc (4 * max (1/2) (min 2 factor)))),
      le_max_left _ _, max_le (by norm_num) (min_le_left _ _),
      (setQuality_fields env factor s).2⟩, ?_, ?_⟩
  · simp only [videoSetStreamQualityFactor]
    norm_num
  · simp only [videoSetStreamQualityFactor]
    norm_num

/-- C2, counterexample: with mode forced to `vaapi` but the VAAPI device
node absent, the code emits the software (libx264) list, not the accel-A
list the claim promises for forced accel-A mode. -/
theorem buildFFmpegArgs_forced_mode_counterexample :
    buildFFmpegArgs (fun _ => false) "vaapi" "/dev/dri/renderD128" "/dev/video0" 30 "4M"
      = x264Args "/dev/video0" 30 "4M" ∧
    x264Args "/dev/video0" 30 "4M" ≠ vaapiArgs "/dev/dri/renderD128" "/dev/video0" 30 "4M" := by
  constructor
  · rfl
  · decide

/-- C2 (amended: device-node existence is required even in a forced
acceleration mode): the builder emits the accel-A (VAAPI) list iff the
mode is `vaapi` or `auto` *and* accel-A's device node exists; otherwise
the accel-B (QSV) list iff the mode is `qsv`, or `auto` with accel-A's
node absent, *and* the fixed accel-B node `/dev/dri/renderD128` exists;
otherwise the software (libx264) list. -/
theorem buildFFmpegArgs_policy (fs : String → Bool) (mode vdev videodev : String)
    (fps : Nat) (br : String) :
    buildFFmpegArgs fs mode vdev videodev fps br
      = specSelectorArgs fs mode vdev videodev fps br := by
  unfold buildFFmpegArgs specSelectorArgs
  by_cases h1 : mode = "vaapi"
  · subst h1
    cases hv : fs vdev <;> cases hq : fs "/dev/dri/renderD128" <;> simp [hv, hq]
  · by_cases h2 : mode = "auto"
    · subst h2
      cases hv : fs vdev <;> cases hq : fs "/dev/dri/renderD128" <;> simp [hv, hq]
    · by_cases h3 : mode = "qsv"
      · subst h3
        cases hv : fs vdev <;> cases hq : fs "/dev/dri/renderD128" <;> simp [hv, hq]
      · have b1 : (mode == "vaapi") = false := by simpa using h1
        have b2 : (mode == "auto") = false := by simpa using h2
        have b3 : (mode == "qsv") = false := by simpa using h3
        simp [b1, b2, b3]

theorem videoStart_success_eq (env : StartEnv) (s : PipeState)
    (h : s.ffmpegCmd = none) (hp : env.pipeOk = true) (hs : env.spawnOk = true) :
    videoStart env s =
      ({ s with ffmpegCancel := some (), ffmpegCmd := some (),
                ffmpegStdout := some (), ready := true, errMsg := "" },
       { spawns := [buildFFmpegArgs env.fsExists s.hwAccelMode s.vaapiDevice
           s.videoDevice s.targetFPS s.targetBitrate],
         killed := 0, cancels := 0, logsErr := [], statePub := [(true, "")] }) := by
  simp [videoStart, h, hp, hs]

/-- C5: `videoStart` while a run handle already exists is a no-op that
spawns nothing, so two consecutive `videoStart` calls without an
intervening `videoStop`, the first of which succeeds, spawn exactly one
subprocess: the second call returns the state unchanged with no
effects. -/
theorem videoStart_single_run (env1 env2 : StartEnv) (s : PipeState)
    (hidle : s.ffmpegCmd = none) (hpipe : env1.pipeOk = true)
    (hspawn : env1.spawnOk = true) :
    (videoStart env1 s).2.spawns.length = 1 ∧
    videoStart env2 (videoStart env1 s).1 = ((videoStart env1 s).1, emptyEffects) ∧
    (videoStart env1 s).2.spawns.length
      + (videoStart env2 (videoStart env1 s).1).2.spawns.length = 1 := by
  have h := videoStart_success_eq env1 s hidle hpipe hspawn
  refine ⟨by rw [h]; rfl, ?_, ?_⟩
  · rw [h]
    simp [videoStart]
  · rw [h]
    simp [videoStart, emptyEffects]

/-- Witness for C5: two starts from the initial idle state with a
successful first launch. -/
theorem videoStart_single_run_witness :
    (videoStart envAllOk initState).2.spawns.length = 1 ∧
    videoStart envAllOk (videoStart envAllOk initState).1
      = ((videoStart envAllOk initState).1, emptyEffects) ∧
    (videoStart envAllOk initState).2.spawns.length
      + (videoStart envAllOk (videoStart envAllOk initState).1).2.spawns.length = 1 :=
  videoStart_single_run envAllOk envAllOk initState rfl rfl rfl

/-- A start environment in which the subprocess spawn (`Start`) fails
after the stdout pipe was opened successfully. -/
def envSpawnFail : StartEnv :=
  { pipeOk := true, spawnOk := false, fsExists := fun _ => true }

/-- C6, counterexample to "the RunHandle fields are cleared": after a
spawn failure the code clears only `ffmpegCmd` and `ffmpegCancel`
(lines 244-245); `ffmpegStdout`, assigned at line 239, is left set. -/
theorem videoStart_failure_stdout_counterexample :
    (videoStart envSpawnFail initState).2.logsErr = ["ffmpeg start failed"] ∧
    (videoStart envSpawnFail initState).1.ffmpegCmd = none ∧
    (videoStart envSpawnFail initState).1.ffmpegStdout = some () ∧
    (videoStart envSpawnFail initState).1.ffmpegStdout ≠ none := by
  refine ⟨rfl, rfl, rfl, by decide⟩

theorem videoStart_success_spawns (env : StartEnv) (t : PipeState)
    (h : t.ffmpegCmd = none) (hp : env.pipeOk = true) (hs : env.spawnOk = true) :
    (videoStart env t).2.spawns.length = 1 := by
  rw [videoStart_success_eq env t h hp hs]
  rfl

/-- C6 (amended: on the spawn-failure path the stdout field keeps the
opened pipe; only `ffmpegCmd` and `ffmpegCancel` are cleared): on a
`StdoutPipe` or `Start` failure `videoStart` logs exactly one fatal
error event, spawns nothing, leaves the pipeline not-ready, clears
`ffmpegCmd` and `ffmpegCancel` so that no run is registered, attempts no
automatic retry, and a subsequent successful `videoStart` is accepted
(it spawns a subprocess). -/
theorem videoStart_failure_amended (env env2 : StartEnv) (s : PipeState)
    (hidle : s.ffmpegCmd = none) (hready : s.ready = false)
    (hfail : env.pipeOk = false ∨ env.spawnOk = false)
    (h2p : env2.pipeOk = true) (h2s : env2.spawnOk = true) :
    (videoStart env s).2.logsErr.length = 1 ∧
    (videoStart env s).2.spawns = [] ∧
    (videoStart env s).1.ready = false ∧
    (videoStart env s).1.ffmpegCmd = none ∧
    (videoStart env s).1.ffmpegCancel = none ∧
    (videoStart env2 (videoStart env s).1).2.spawns.length = 1 := by
  have hfst : (videoStart env s).2.logsErr.length = 1 ∧
      (videoStart env s).2.spawns = [] ∧
      (videoStart env s).1.ready = false ∧
      (videoStart env s).1.ffmpegCmd = none ∧
      (videoStart env s).1.ffmpegCancel = none := by
    rcases hfail with hf | hf
    · simp [videoStart, hidle, hf, hready]
    · by_cases hp : env.pipeOk = false
      · simp [videoStart, hidle, hp, hready]
      · have hp2 : env.pipeOk = true := by
          revert hp; cases env.pipeOk <;> simp
        simp [videoStart, hidle, hp2, hf, hready]
  exact ⟨hfst.1, hfst.2.1, hfst.2.2.1, hfst.2.2.2.1, hfst.2.2.2.2,
    videoStart_success_spawns env2 _ hfst.2.2.2.1 h2p h2s⟩

/-- Witness for C6 at the initial idle state with a spawn failure
followed by a successful retry. -/
theorem videoStart_failure_amended_witness :
    (videoStart envSpawnFail initState).2.logsErr.length = 1 ∧
    (videoStart envSpawnFail initState).2.spawns = [] ∧
    (videoStart envSpawnFail initState).1.ready = false ∧
    (videoStart envSpawnFail initState).1.ffmpegCmd = none ∧
    (videoStart envSpawnFail initState).1.ffmpegCancel = none ∧
    (videoStart envAllOk (videoStart envSpawnFail initState).1).2.spawns.length = 1 :=
  videoStart_failure_amended envSpawnFail envAllOk initState rfl rfl (Or.inr rfl) rfl rfl

/-- Two concatenated units, each a 4-byte start marker, an AUD byte
(low 5 bits = 9), and a one-byte body: the input of the framer round-trip
claim with N = 2. -/
def c3Stream : List Nat := [0, 0, 0, 1, 9, 170, 0, 0, 0, 1, 9, 187]

/-- C3 (evidence of the code bug): feeding the framer the N = 2 stream
`c3Stream` in one read delivers 0 frames and retains the whole stream,
not the N-1 = 1 frame of the round-trip property: `indexAUD` returns the
boundary at offset 0 and the scan loop (line 289, `if idx <= 0 break`)
stops there without ever searching past the leading boundary, contrary
to the comment at line 292 ("skip the first AUD header"). -/
theorem framer_stuck_at_boundary :
    (readPass [] c3Stream).1.length = 0 ∧ (readPass [] c3Stream).2 = c3Stream := by
  have hb : bytesIndex c3Stream startCode = some 0 := by decide
  have h0 : indexAUD c3Stream = some 0 := by
    rw [indexAUD, indexAUDAux]
    simp only [List.drop_zero, hb]
    norm_num [c3Stream]
  have hscan : scanFrames c3Stream = ([], c3Stream) := scanFrames_stop _ (Or.inr h0)
  have hlen : ¬ (256 * 1024 < c3Stream.length) := by norm_num [c3Stream]
  simp only [readPass, List.nil_append, hscan]
  rw [if_neg hlen]
  exact ⟨rfl, rfl⟩

/-- C4: for a read pass whose accumulated buffer contains no
start-marker-plus-AUD boundary at all, once the buffer length exceeds the
256 KiB ceiling the framer delivers exactly one frame equal to the full
buffer content and clears the buffer. -/
theorem framer_overflow_flush (buf chunk : List Nat)
    (hnb : ∀ pos, ¬ isBoundaryAt (buf ++ chunk) pos)
    (hlen : 256 * 1024 < (buf ++ chunk).length) :
    readPass buf chunk = ([buf ++ chunk], []) := by
  have hidx : indexAUD (buf ++ chunk) = none := by
    cases h : indexAUD (buf ++ chunk) with
    | none => rfl
    | some pos => exact absurd (indexAUD_sound _ _ h) (hnb pos)
  have hscan := scanFrames_stop _ (Or.inl hidx)
  simp only [readPass, hscan]
  rw [if_pos (by simpa using hlen)]
  simp

theorem no_boundary_replicate (n pos : Nat) :
    ¬ isBoundaryAt (List.replicate n 255) pos := by
  intro h
  obtain ⟨hp, hlt, hb⟩ := h
  rw [List.length_replicate] at hlt
  rw [List.drop_replicate, List.take_replicate] at hp
  have hmin : min 4 (n - pos) = 4 := by omega
  rw [hmin] at hp
  exact absurd hp (by decide)

/-- Witness for C4: a 256 KiB + 1 stream of 0xFF bytes (no marker bytes
at all) is flushed whole as a single degenerate frame. -/
theorem framer_overflow_flush_witness :
    readPass [] (List.replicate 262145 255) = ([List.replicate 262145 255], []) := by
  have h1 : ∀ pos, ¬ isBoundaryAt ([] ++ List.replicate 262145 255) pos := by
    intro pos
    rw [List.nil_append]
    exact no_boundary_replicate 262145 pos
  have h2 : 256 * 1024 < ([] ++ List.replicate 262145 255).length := by
    rw [List.nil_append, List.length_replicate]
    norm_num
  have h := framer_overflow_flush [] (List.replicate 262145 255) h1 h2
  rw [List.nil_append] at h
  exact h
